import Mathlib

/-!
Shallow embedding of the authentication and blog-content subsystem of the
`master_start2impact` backend (FastAPI application under `backend/app`),
together with theorems settling the specification claims about it.

The embedding follows the source files:
* `app/core/security.py`   — token issuance, password hashing
* `app/schemas/user.py`    — `TokenPayload` and request schemas
* `app/api/deps.py`        — `get_current_user` authentication gate
* `app/api/endpoints/auth.py` — login and registration endpoints
* `app/api/endpoints/blog.py` — article CRUD and bookmark endpoints

External libraries (python-jose JWTs, passlib Argon2 hashing, Python string
builtins) are modelled at their documented interface; each such model carries
a doc comment saying what it stands for.
-/

namespace App

/-! ### Models of Python built-ins -/

/-- Decimal digit character for a value below ten (model of the digits used
by Python `str()` on a nonnegative integer). -/
def digitChar : Nat → Char
  | 0 => '0'
  | 1 => '1'
  | 2 => '2'
  | 3 => '3'
  | 4 => '4'
  | 5 => '5'
  | 6 => '6'
  | 7 => '7'
  | 8 => '8'
  | _ => '9'

/-- Accumulator pass producing the decimal digits of `n` in front of `acc`. -/
def toDecList (n : Nat) (acc : List Char) : List Char :=
  if n < 10 then digitChar n :: acc
  else toDecList (n / 10) (digitChar (n % 10) :: acc)
termination_by n
decreasing_by exact Nat.div_lt_self (by omega) (by omega)

/-- Model of Python `str()` applied to a nonnegative integer: its decimal
representation, most significant digit first. -/
def pyStr (n : Nat) : String := ⟨toDecList n []⟩

/-- Value of a decimal digit character, `none` on a non-digit. -/
def digitVal? (c : Char) : Option Nat :=
  if c.isDigit then some (c.toNat - 48) else none

/-- Left-to-right decimal accumulation over a character list. -/
def parseDecAux (acc : Nat) : List Char → Option Nat
  | [] => some acc
  | c :: cs =>
    match digitVal? c with
    | some d => parseDecAux (acc * 10 + d) cs
    | none => none

/-- Model of the pydantic `int` coercion applied to a JWT `sub` claim string
(`TokenPayload.sub : Optional[int]` in `app/schemas/user.py`): parses a
nonempty all-digit decimal string, and fails — a `ValidationError` — on
anything else.  The server only ever mints `sub = str(user.id)`, which is a
canonical decimal string, so sign and whitespace handling of the Python
coercion are not modelled. -/
def pyIntCoerce (s : String) : Option Nat :=
  match s.data with
  | [] => none
  | c :: cs => parseDecAux 0 (c :: cs)

theorem digitVal?_digitChar (d : Nat) (h : d < 10) :
    digitVal? (digitChar d) = some d := by
  interval_cases d <;> decide

theorem toDecList_lt {n : Nat} (h : n < 10) (acc : List Char) :
    toDecList n acc = digitChar n :: acc := by
  rw [toDecList, if_pos h]

theorem toDecList_ge {n : Nat} (h : ¬ n < 10) (acc : List Char) :
    toDecList n acc = toDecList (n / 10) (digitChar (n % 10) :: acc) := by
  rw [toDecList, if_neg h]

theorem toDecList_eq_append (n : Nat) :
    ∀ acc : List Char, toDecList n acc = toDecList n [] ++ acc := by
  induction n using Nat.strong_induction_on with
  | _ n ih =>
    intro acc
    by_cases h : n < 10
    · rw [toDecList_lt h, toDecList_lt h]; rfl
    · rw [toDecList_ge h, toDecList_ge h,
        ih (n / 10) (Nat.div_lt_self (by omega) (by omega))
          (digitChar (n % 10) :: acc),
        ih (n / 10) (Nat.div_lt_self (by omega) (by omega)) [digitChar (n % 10)]]
      simp

theorem toDecList_ne_nil (n : Nat) : ∀ acc : List Char, toDecList n acc ≠ [] := by
  induction n using Nat.strong_induction_on with
  | _ n ih =>
    intro acc
    by_cases h : n < 10
    · rw [toDecList_lt h]; simp
    · rw [toDecList_ge h]
      exact ih (n / 10) (Nat.div_lt_self (by omega) (by omega)) _

theorem parseDecAux_append (xs : List Char) :
    ∀ (ys : List Char) (acc : Nat),
      parseDecAux acc (xs ++ ys) =
        (parseDecAux acc xs).bind (fun m => parseDecAux m ys) := by
  induction xs with
  | nil => intro ys acc; rfl
  | cons c cs ih =>
    intro ys acc
    simp only [List.cons_append, parseDecAux]
    cases digitVal? c with
    | none => rfl
    | some d => exact ih ys (acc * 10 + d)

theorem parseDecAux_toDecList (n : Nat) :
    parseDecAux 0 (toDecList n []) = some n := by
  induction n using Nat.strong_induction_on with
  | _ n ih =>
    by_cases h : n < 10
    · rw [toDecList_lt h]
      simp [parseDecAux, digitVal?_digitChar n h]
    · rw [toDecList_ge h, toDecList_eq_append,
        parseDecAux_append, ih (n / 10) (Nat.div_lt_self (by omega) (by omega))]
      simp [parseDecAux, digitVal?_digitChar (n % 10) (Nat.mod_lt n (by omega))]
      omega

/-- Round trip of the decimal models: the pydantic coercion recovers every
subject id that `str()` serialised. -/
theorem pyIntCoerce_pyStr (n : Nat) : pyIntCoerce (pyStr n) = some n := by
  unfold pyIntCoerce pyStr
  cases hd : toDecList n [] with
  | nil => exact absurd hd (toDecList_ne_nil n [])
  | cons c cs => simpa [hd] using parseDecAux_toDecList n

/-- Model of Python `str.lower()` restricted to its per-character ASCII
action (the only characters the test corpus and slugs exercise). -/
def pyLower (s : String) : String := ⟨s.data.map Char.toLower⟩

/-- Leftmost non-overlapping replacement of the nonempty pattern `p :: ps`
by `rep` in a character list — the semantics of Python `str.replace`. -/
def pyReplaceAux (p : Char) (ps : List Char) (rep : List Char) : List Char → List Char
  | [] => []
  | c :: cs =>
    if (p :: ps).isPrefixOf (c :: cs) then
      rep ++ pyReplaceAux p ps rep (cs.drop ps.length)
    else
      c :: pyReplaceAux p ps rep cs
termination_by xs => xs.length
decreasing_by
  · simp only [List.length_drop, List.length_cons]; omega
  · simp only [List.length_cons]; omega

/-- Model of Python `str.replace(old, new)`.  The source only calls it with
the nonempty patterns `" "` and `"'"`; an empty pattern returns the string
unchanged in this model. -/
def pyReplace (s old new : String) : String :=
  match old.data with
  | [] => s
  | p :: ps => ⟨pyReplaceAux p ps new.data s.data⟩

theorem pyReplaceAux_single (p : Char) (rep : List Char) (xs : List Char) :
    pyReplaceAux p [] rep xs =
      xs.flatMap (fun c => if c == p then rep else [c]) := by
  induction xs with
  | nil => simp [pyReplaceAux]
  | cons c cs ih =>
    rw [pyReplaceAux]
    by_cases h : p = c
    · subst h
      simp [List.isPrefixOf, ih]
    · have h3 : ¬ (c = p) := fun hh => h hh.symm
      simp [List.isPrefixOf, h, h3, ih]

/-- Python truthiness fallback on an optional string: `a or b` / `if not a`,
where both `None` and the empty string are falsy (`app/api/endpoints/blog.py`
uses this for `slug`, `excerpt` and `image_url`). -/
def pyOrStr (a : Option String) (b : String) : String :=
  match a with
  | none => b
  | some s => if s = "" then b else s

/-- Model of Python `str.startswith(pre)`: prefix test on the character
sequence. -/
def pyStartsWith (s pre : String) : Bool :=
  pre.data.isPrefixOf s.data

/-! ### Data model (`app/models/user.py`, `app/models/blog.py`) -/

/-- Row of the `users` table (`app/models/user.py`): id primary key,
unique email, Argon2 password hash, activity and admin flags, language
defaulting to `"it"`. -/
structure User where
  id : Nat
  email : String
  full_name : String
  hashed_password : String
  is_active : Bool
  is_admin : Bool
  language : String
deriving Repr, DecidableEq

/-- Opaque stand-in for the AI-generated `structured_content` JSON column
(`{"sections": [{"title": ..., "content": ...}]}`). -/
structure StructuredContent where
  sections : List (String × String)
deriving Repr, DecidableEq

/-- Row of the `articles` table (`app/models/blog.py`).  `created_at` is the
UTC timestamp the store fills in on insert, modelled as an integer clock
instant. -/
structure Article where
  id : Nat
  title : String
  slug : String
  content : String
  excerpt : Option String
  category : Option String
  image_url : Option String
  image_slug : Option String
  images : List String
  structured_content : Option StructuredContent
  author_id : Option Nat
  is_published : Bool
  created_at : Int
deriving Repr, DecidableEq

/-- Row of the `saved_articles` bookmark junction table
(`app/models/blog.py`): surrogate id plus the `(user_id, article_id)` pair;
no store-level composite uniqueness constraint. -/
structure SavedArticle where
  id : Nat
  user_id : Nat
  article_id : Nat
deriving Repr, DecidableEq

/-- The relational store: the three tables in insertion order together with
the auto-increment counters the store uses to assign primary keys. -/
structure Db where
  users : List User
  nextUserId : Nat
  articles : List Article
  nextArticleId : Nat
  saved : List SavedArticle
  nextSavedId : Nat
deriving Repr, DecidableEq

/-! ### External boundaries: Argon2 hashing and jose JWTs -/

/-- Model of `passlib` Argon2 hashing (`security.get_password_hash`): an
injective tagging of the password.  Salt and digest internals are outside the
embedding; what the model keeps is the contract the code relies on —
`verify_password p (get_password_hash p) = true`, and verification fails on
any other password. -/
def get_password_hash (password : String) : String :=
  "$argon2$" ++ password

/-- Model of `passlib` verification (`security.verify_password`): succeeds
exactly on the password whose hash is stored. -/
def verify_password (plain_password hashed_password : String) : Bool :=
  hashed_password == get_password_hash plain_password

/-- Model of a jose JWT as the server can observe it: the two claims the
application uses (`sub`, `exp`), the key the token was signed with, and a
well-formedness flag standing for "structurally a valid signed JWT".
A token string that is not a JWT at all is `wellFormed = false`. -/
structure Jwt where
  sub : Option String
  exp : Int
  key : String
  wellFormed : Bool
deriving Repr, DecidableEq

/-- Claims returned by a successful `jose.jwt.decode`. -/
structure JwtClaims where
  sub : Option String
  exp : Int
deriving Repr, DecidableEq

/-- Model of `jose.jwt.encode(to_encode, key, algorithm)`: a well-formed
token carrying the claims, signed with `key`. -/
def jwtEncode (sub : Option String) (exp : Int) (key : String) : Jwt :=
  { sub := sub, exp := exp, key := key, wellFormed := true }

/-- Model of `jose.jwt.decode(token, key, algorithms)`: returns the claims
when the token is well-formed, the signature matches `key`, and the `exp`
claim is not in the past (jose raises `ExpiredSignatureError` when
`exp < now`); any failure collapses to `none` — a `JWTError`. -/
def jwtDecode (token : Jwt) (key : String) (now : Int) : Option JwtClaims :=
  if token.wellFormed && token.key == key && !(decide (token.exp < now)) then
    some { sub := token.sub, exp := token.exp }
  else
    none

/-! ### `app/core/security.py` -/

/-- Configured `settings.ACCESS_TOKEN_EXPIRE_MINUTES` (`app/core/config.py`). -/
def ACCESS_TOKEN_EXPIRE_MINUTES : Nat := 30

/-- Function `security.create_access_token(subject, expires_delta)`: signs
`{"exp": expire, "sub": str(subject)}` with the server secret.
`expires_delta` is a `timedelta` in seconds; Python truthiness makes both
`None` and a zero delta fall back to the configured default of
`ACCESS_TOKEN_EXPIRE_MINUTES` minutes.  `now` is `datetime.utcnow()`. -/
def create_access_token (subject : Nat) (expires_delta : Option Int)
    (now : Int) (secret : String) : Jwt :=
  let expire : Int :=
    match expires_delta with
    | some d => if d ≠ 0 then now + d
        else now + 60 * (ACCESS_TOKEN_EXPIRE_MINUTES : Int)
    | none => now + 60 * (ACCESS_TOKEN_EXPIRE_MINUTES : Int)
  jwtEncode (some (pyStr subject)) expire secret

/-! ### `app/schemas/user.py` -/

/-- Schema `schemas.TokenPayload`: `sub: Optional[int] = None`. -/
structure TokenPayload where
  sub : Option Nat
deriving Repr, DecidableEq

/-- Pydantic validation `TokenPayload(**payload)`: an absent `sub` claim
parses to `sub = None`; a present claim must coerce to an integer, otherwise
a `ValidationError` is raised (`none` here). -/
def tokenPayload? (claims : JwtClaims) : Option TokenPayload :=
  match claims.sub with
  | none => some { sub := none }
  | some s =>
    match pyIntCoerce s with
    | some n => some { sub := some n }
    | none => none

/-- Schema `schemas.UserCreate`: required registration fields. -/
structure UserCreate where
  email : String
  password : String
  full_name : String
deriving Repr, DecidableEq

/-- Schema `schemas.Token`: the login response of access token and token type. -/
structure TokenOut where
  access_token : Jwt
  token_type : String
deriving Repr, DecidableEq

/-! ### Errors -/

/-- Error shape of `fastapi.HTTPException(status_code, detail)`. -/
structure HTTPException where
  status_code : Nat
  detail : String
deriving Repr, DecidableEq

/-- The 403 raised by `get_current_user` on any token-validation failure. -/
def unauthenticatedErr : HTTPException :=
  { status_code := 403, detail := "Could not validate credentials" }

/-- The 404 raised by `get_current_user` when the subject resolves to no
stored user. -/
def userNotFoundErr : HTTPException :=
  { status_code := 404, detail := "User not found" }

/-! ### `app/api/deps.py` -/

/-- Query `db.query(User).filter(User.id == sub).first()`: first user whose id
equals the parsed subject.  When `sub` is `None` the SQL comparison
`id IS NULL` matches no row of the integer primary-key column. -/
def firstUserWithId (db : Db) : Option Nat → Option User
  | none => none
  | some i => db.users.find? (fun u => u.id == i)

/-- Gate `deps.get_current_user`: decode the bearer token with the server secret,
parse the payload, and load the principal; 403 on any decode or validation
failure, 404 when the subject is not in the store. -/
def get_current_user (db : Db) (secret : String) (now : Int)
    (token : Jwt) : Except HTTPException User :=
  match jwtDecode token secret now with
  | none => .error unauthenticatedErr
  | some payload =>
    match tokenPayload? payload with
    | none => .error unauthenticatedErr
    | some token_data =>
      match firstUserWithId db token_data.sub with
      | none => .error userNotFoundErr
      | some user => .ok user

/-! ### `app/api/endpoints/auth.py` -/

/-- The 400 raised by login for a missing email or a wrong password —
deliberately the same undifferentiated message in both cases. -/
def incorrectCredentialsErr : HTTPException :=
  { status_code := 400, detail := "Incorrect email or password" }

/-- The 400 raised by login for a correct password on a deactivated
account. -/
def inactiveUserErr : HTTPException :=
  { status_code := 400, detail := "Inactive user" }

/-- The 400 raised by registration on a duplicate email. -/
def duplicateEmailErr : HTTPException :=
  { status_code := 400,
    detail := "The user with this username already exists in the system." }

/-- Query `db.query(User).filter(User.email == email).first()`. -/
def firstUserWithEmail (db : Db) (email : String) : Option User :=
  db.users.find? (fun u => u.email == email)

/-- Endpoint `auth.login_access_token`: look the principal up by email; missing user
or failed password verification yield the same 400; an inactive account a
distinct 400; otherwise a bearer token for `user.id` with the configured
expiry.  Reads only — the store is not mutated. -/
def login_access_token (db : Db) (now : Int) (secret : String)
    (username password : String) : Except HTTPException TokenOut :=
  match firstUserWithEmail db username with
  | none => .error incorrectCredentialsErr
  | some user =>
    if !(verify_password password user.hashed_password) then
      .error incorrectCredentialsErr
    else if !user.is_active then
      .error inactiveUserErr
    else
      .ok { access_token :=
              create_access_token user.id
                (some (60 * (ACCESS_TOKEN_EXPIRE_MINUTES : Int))) now secret,
            token_type := "bearer" }

/-- Endpoint `auth.register_user`: reject an email that is already stored, leaving
the store untouched; otherwise insert a new active, non-admin user with the
hashed password and the next id, and return it.  The result pairs the
response with the resulting store. -/
def register_user (db : Db) (user_in : UserCreate) :
    Except HTTPException User × Db :=
  match firstUserWithEmail db user_in.email with
  | some _ => (.error duplicateEmailErr, db)
  | none =>
    let user : User :=
      { id := db.nextUserId
        email := user_in.email
        full_name := user_in.full_name
        hashed_password := get_password_hash user_in.password
        is_active := true
        is_admin := false
        language := "it" }
    (.ok user,
      { db with users := db.users ++ [user], nextUserId := db.nextUserId + 1 })

/-! ### `app/api/endpoints/blog.py` -/

/-- Schema `schemas.ArticleCreate` (all of `ArticleBase`). -/
structure ArticleCreate where
  title : String
  slug : Option String := none
  content : String
  excerpt : Option String := none
  category : Option String := none
  image_url : Option String := none
  image_slug : Option String := none
  images : Option (List String) := none
  structured_content : Option StructuredContent := none
  is_published : Option Bool := some false
deriving Repr, DecidableEq

/-- Schema `schemas.ArticleUpdate` for partial update; a `none` field models a field
the client did not send (`exclude_unset=True`). -/
structure ArticleUpdate where
  title : Option String := none
  content : Option String := none
  excerpt : Option String := none
  category : Option String := none
  image_url : Option String := none
  is_published : Option Bool := none
deriving Repr, DecidableEq

/-- An uploaded multipart file as the endpoint sees it: content type,
client-supplied filename, and opaque bytes. -/
structure UploadFile where
  content_type : String
  filename : String
  content : String
deriving Repr, DecidableEq

/-- Endpoint `blog.upload_image`: admin-gated; rejects non-image content types;
stores the file under a fresh name and returns its public URL.  `uuidHex`
stands for `uuid.uuid4().hex[:8]`; the filesystem write is modelled as
always succeeding (its 500 fallback is out of scope).  No store access. -/
def upload_image (file : UploadFile) (current_user : User)
    (uuidHex : String) : Except HTTPException String :=
  if !current_user.is_admin then
    .error { status_code := 403, detail := "Only admins can upload images" }
  else if !(pyStartsWith file.content_type "image/") then
    .error { status_code := 400, detail := "File must be an image" }
  else
    .ok ("/images/blog/" ++ uuidHex ++ "-" ++ file.filename)

/-- Endpoint `blog.read_articles` (`GET /blog/articles`): offset/limit pagination
over all articles regardless of publication status.  The endpoint declares
no authentication dependency: it takes no token or principal at all. -/
def read_articles (skip limit : Nat) (db : Db) : List Article :=
  (db.articles.drop skip).take limit

/-- Endpoint `blog.get_all_articles` (`GET /blog`): the published articles only;
public, no authentication dependency. -/
def get_all_articles (db : Db) : List Article :=
  db.articles.filter (fun a => a.is_published)

/-- Endpoint `blog.create_article` (`POST /blog/articles`): admin-gated creation with
AI structuring.  `ai` is the outcome of the external
`article_service.structure_article` call, already collapsed by the
`try/except` to `none` on any exception.  The slug falls back to
`title.lower().replace(" ", "-").replace("'", "")` when not provided, the
excerpt to `content[:200] + "..."`; `is_published` is not passed to the
model, so the row gets the column default `False`, and `author_id` stays
`None`. -/
def create_article (db : Db) (now : Int) (article_in : ArticleCreate)
    (current_user : User) (ai : Option StructuredContent) :
    Except HTTPException Article × Db :=
  if !current_user.is_admin then
    (.error { status_code := 403, detail := "Only admins can create articles" },
      db)
  else
    let slug := pyOrStr article_in.slug
      (pyReplace (pyReplace (pyLower article_in.title) " " "-") "'" "")
    let excerpt := pyOrStr article_in.excerpt
      (article_in.content.take 200 ++ "...")
    let images : List String :=
      match article_in.image_url with
      | some u => if u ≠ "" then [u] else []
      | none => []
    let article : Article :=
      { id := db.nextArticleId
        title := article_in.title
        slug := slug
        content := article_in.content
        excerpt := some excerpt
        category := article_in.category
        image_url := article_in.image_url
        image_slug := article_in.image_slug
        images := images
        structured_content := ai
        author_id := none
        is_published := false
        created_at := now }
    (.ok article,
      { db with articles := db.articles ++ [article],
                nextArticleId := db.nextArticleId + 1 })

/-- Query `db.query(Article).filter(Article.id == id).first()`. -/
def firstArticleWithId (db : Db) (id : Nat) : Option Article :=
  db.articles.find? (fun a => a.id == id)

/-- The application-level bookmark lookup of `blog.save_article`:
`filter(SavedArticle.user_id == ..., SavedArticle.article_id == ...).first()`. -/
def firstSavedFor (db : Db) (user_id article_id : Nat) : Option SavedArticle :=
  db.saved.find? (fun s => s.user_id == user_id && s.article_id == article_id)

/-- Endpoint `blog.save_article` (`POST /blog/save/...`): 404 when the
article does not exist; idempotent success returning the existing bookmark
when the pair is already saved; otherwise insert a fresh bookmark row. -/
def save_article (db : Db) (article_id : Nat) (current_user : User) :
    Except HTTPException SavedArticle × Db :=
  match firstArticleWithId db article_id with
  | none =>
    (.error { status_code := 404, detail := "Article not found" }, db)
  | some _ =>
    match firstSavedFor db current_user.id article_id with
    | some saved => (.ok saved, db)
    | none =>
      let saved_article : SavedArticle :=
        { id := db.nextSavedId
          user_id := current_user.id
          article_id := article_id }
      (.ok saved_article,
        { db with saved := db.saved ++ [saved_article],
                  nextSavedId := db.nextSavedId + 1 })

/-- The `setattr` loop of `blog.update_article` over the provided fields. -/
def applyArticleUpdate (a : Article) (u : ArticleUpdate) : Article :=
  { a with
    title := u.title.getD a.title
    content := u.content.getD a.content
    excerpt := match u.excerpt with | some e => some e | none => a.excerpt
    category := match u.category with | some c => some c | none => a.category
    image_url := match u.image_url with | some i => some i | none => a.image_url
    is_published := u.is_published.getD a.is_published }

/-- Endpoint `blog.update_article` (`PUT /blog/...`): admin-gated partial
update; 404 when the article does not exist; otherwise the provided fields
are copied onto the stored row. -/
def update_article (db : Db) (article_id : Nat) (article_in : ArticleUpdate)
    (current_user : User) : Except HTTPException Article × Db :=
  if !current_user.is_admin then
    (.error { status_code := 403, detail := "Only admins can update articles" },
      db)
  else
    match firstArticleWithId db article_id with
    | none =>
      (.error { status_code := 404, detail := "Article not found" }, db)
    | some article =>
      let updated := applyArticleUpdate article article_in
      (.ok updated,
        { db with articles :=
            db.articles.map (fun a => if a.id == article_id then updated else a) })

/-- Endpoint `blog.delete_article` (`DELETE /blog/...`): admin-gated hard
delete; 404 when the article does not exist; on success the row is removed
and a confirmation message returned. -/
def delete_article (db : Db) (article_id : Nat) (current_user : User) :
    Except HTTPException String × Db :=
  if !current_user.is_admin then
    (.error { status_code := 403, detail := "Only admins can delete articles" },
      db)
  else
    match firstArticleWithId db article_id with
    | none =>
      (.error { status_code := 404, detail := "Article not found" }, db)
    | some article =>
      (.ok "Article deleted successfully",
        { db with articles :=
            db.articles.filter (fun a => !(a.id == article.id)) })

/-! ### Derived characterisations used by the claim theorems -/

/-- A bearer token passes every validation step of the gate: structurally
well formed, signed with the server secret, unexpired, and its `sub` claim
(if present) coercible to an integer.  The last conjunct is the pydantic
schema validation of `TokenPayload`; a payload that fails it is malformed
for the gate, which collapses it into the same 403. -/
def tokenAccepted (secret : String) (now : Int) (t : Jwt) : Bool :=
  t.wellFormed && t.key == secret && !(decide (t.exp < now)) &&
    (match t.sub with
     | none => true
     | some s => (pyIntCoerce s).isSome)

/-- The subject id a token carries, after the decimal coercion. -/
def claimedSubject (t : Jwt) : Option Nat :=
  t.sub.bind pyIntCoerce

theorem tokenAccepted_decode_parse {secret : String} {now : Int} {t : Jwt} :
    tokenAccepted secret now t = true ↔
      ∃ p, jwtDecode t secret now = some { sub := t.sub, exp := t.exp } ∧
        tokenPayload? { sub := t.sub, exp := t.exp } = some p ∧
        p.sub = claimedSubject t := by
  constructor
  · intro h
    simp only [tokenAccepted, Bool.and_eq_true, beq_iff_eq] at h
    obtain ⟨⟨⟨hwf, hkey⟩, hexp⟩, hsub⟩ := h
    refine ⟨{ sub := claimedSubject t }, ?_, ?_, rfl⟩
    · simp [jwtDecode, hwf, hkey, hexp]
    · cases hs : t.sub with
      | none => simp [tokenPayload?, hs, claimedSubject]
      | some s =>
        simp only [hs] at hsub
        obtain ⟨n, hn⟩ := Option.isSome_iff_exists.mp hsub
        simp [tokenPayload?, hs, hn, claimedSubject]
  · rintro ⟨p, hdec, hpay, -⟩
    simp only [jwtDecode] at hdec
    by_cases hc : (t.wellFormed && t.key == secret && !decide (t.exp < now)) = true
    · simp only [tokenAccepted, Bool.and_eq_true] at hc ⊢
      refine ⟨hc, ?_⟩
      cases hs : t.sub with
      | none => rfl
      | some s =>
        simp only [tokenPayload?, hs] at hpay
        cases hps : pyIntCoerce s with
        | none => simp [hps] at hpay
        | some n => simp [hps]
    · simp [hc] at hdec

theorem gate_of_accepted {secret : String} {now : Int} {t : Jwt}
    (h : tokenAccepted secret now t = true) (db : Db) :
    get_current_user db secret now t =
      match firstUserWithId db (claimedSubject t) with
      | none => .error userNotFoundErr
      | some u => .ok u := by
  obtain ⟨p, hdec, hpay, hsub⟩ := tokenAccepted_decode_parse.mp h
  simp only [get_current_user, hdec, hpay, hsub]

theorem gate_of_rejected {secret : String} {now : Int} {t : Jwt}
    (h : tokenAccepted secret now t = false) (db : Db) :
    get_current_user db secret now t = .error unauthenticatedErr := by
  by_cases hc : (t.wellFormed && t.key == secret && !decide (t.exp < now)) = true
  · have hdec : jwtDecode t secret now = some { sub := t.sub, exp := t.exp } := by
      simp only [jwtDecode, hc, if_pos]
    simp only [tokenAccepted, hc, Bool.true_and] at h
    cases hs : t.sub with
    | none => simp [hs] at h
    | some s =>
      simp only [hs] at h
      have hnone : pyIntCoerce s = none := by
        cases hps : pyIntCoerce s with
        | none => rfl
        | some n => rw [hps] at h; simp at h
      simp [get_current_user, hdec, tokenPayload?, hs, hnone]
  · have hdec : jwtDecode t secret now = none := by
      simp only [jwtDecode]
      rw [if_neg hc]
    simp [get_current_user, hdec]

/-- Claim C1: for every bearer token, the authentication gate fails with the
`Unauthenticated` kind (HTTP 403, "Could not validate credentials") exactly
when the token fails validation — malformed (including a payload the
`TokenPayload` schema rejects), signed with a different secret, or expired;
when the token is accepted but the extracted subject matches no stored
principal, it fails with the distinct `PrincipalNotFound` kind (HTTP 404,
"User not found"); and when a principal matches, the gate returns that full
record. -/
theorem claim_C1_auth_gate (db : Db) (secret : String) (now : Int) (t : Jwt) :
    (get_current_user db secret now t = .error unauthenticatedErr ↔
      tokenAccepted secret now t = false)
    ∧ (get_current_user db secret now t = .error userNotFoundErr ↔
      tokenAccepted secret now t = true ∧
        firstUserWithId db (claimedSubject t) = none)
    ∧ (∀ u : User, get_current_user db secret now t = .ok u ↔
      tokenAccepted secret now t = true ∧
        firstUserWithId db (claimedSubject t) = some u) := by
  cases ha : tokenAccepted secret now t with
  | false =>
    rw [gate_of_rejected ha db]
    simp [unauthenticatedErr, userNotFoundErr]
  | true =>
    rw [gate_of_accepted ha db]
    cases hf : firstUserWithId db (claimedSubject t) with
    | none => simp [unauthenticatedErr, userNotFoundErr]
    | some u => simp [unauthenticatedErr, userNotFoundErr]

/-- Sample principal used by the witnesses. -/
def wUser : User :=
  { id := 1
    email := "a@x.com"
    full_name := "A"
    hashed_password := get_password_hash "secret123"
    is_active := true
    is_admin := false
    language := "it" }

/-- Sample store holding only `wUser`. -/
def wDb : Db :=
  { users := [wUser], nextUserId := 2, articles := [], nextArticleId := 1,
    saved := [], nextSavedId := 1 }

/-- A concrete well-formed token for `wUser`, signed with the secret `"k"`. -/
def wTokenValid : Jwt :=
  { sub := some "1", exp := 100, key := "k", wellFormed := true }

/-- A concrete well-formed token with no `sub` claim. -/
def wTokenNoSub : Jwt :=
  { sub := none, exp := 100, key := "k", wellFormed := true }

/-- Witness for claim C1: a concrete valid token for `wUser` makes the gate
return the full record. -/
theorem claim_C1_auth_gate_witness :
    get_current_user wDb "k" 0 wTokenValid = .ok wUser :=
  ((claim_C1_auth_gate wDb "k" 0 wTokenValid).2.2 wUser).mpr
    ⟨by decide, by decide⟩

/-- Claim C3: a token issued with `ttl = -1` second carries an `exp` claim
one second in the past, so verification at the issue instant rejects it with
the 403 `Unauthenticated` failure, although the token is well formed and
signed with the correct server secret. -/
theorem claim_C3_expired_token (db : Db) (secret : String) (subject : Nat)
    (now : Int) :
    get_current_user db secret now
        (create_access_token subject (some (-1)) now secret) =
      .error unauthenticatedErr := by
  apply gate_of_rejected _ db
  have hneg : ((-1 : Int) ≠ 0) := by norm_num
  simp only [create_access_token, jwtEncode, if_pos hneg, tokenAccepted]
  have hlt : (now + -1 < now) := by omega
  simp [hlt]

/-- Claim C9: a correctly signed, unexpired token that carries no `sub`
claim is not rejected as Unauthenticated — the payload validates with
`sub = None`, the id lookup by a null subject matches no user, and the gate
fails with the 404 "User not found". -/
theorem claim_C9_no_sub_claim (db : Db) (secret : String) (now e : Int)
    (h : ¬ e < now) :
    get_current_user db secret now
        { sub := none, exp := e, key := secret, wellFormed := true } =
      .error userNotFoundErr := by
  have ha : tokenAccepted secret now
      { sub := none, exp := e, key := secret, wellFormed := true } = true := by
    simp [tokenAccepted, h]
  rw [gate_of_accepted ha db]
  rfl

/-- Witness for claim C9 at a concrete store, secret and clock. -/
theorem claim_C9_no_sub_claim_witness :
    get_current_user wDb "k" 0 wTokenNoSub = .error userNotFoundErr :=
  claim_C9_no_sub_claim wDb "k" 0 100 (by decide)

/-- Claim C2: the login outcome follows the specified order — unknown email
and wrong password both fail with the one undifferentiated
`InvalidCredentials` 400 (the password check happening before the
active-status check, so an inactive account with a wrong password also gets
it); a matching password on an inactive principal fails with the distinct
`InactiveAccount` 400; and an active principal with a matching password is
issued a bearer token with the configured expiry. -/
theorem claim_C2_login_state_machine (db : Db) (now : Int) (secret : String)
    (username password : String) :
    (firstUserWithEmail db username = none →
      login_access_token db now secret username password =
        .error incorrectCredentialsErr)
    ∧ (∀ u : User, firstUserWithEmail db username = some u →
        verify_password password u.hashed_password = false →
        login_access_token db now secret username password =
          .error incorrectCredentialsErr)
    ∧ (∀ u : User, firstUserWithEmail db username = some u →
        verify_password password u.hashed_password = true →
        u.is_active = false →
        login_access_token db now secret username password =
          .error inactiveUserErr)
    ∧ (∀ u : User, firstUserWithEmail db username = some u →
        verify_password password u.hashed_password = true →
        u.is_active = true →
        login_access_token db now secret username password =
          .ok { access_token :=
                  create_access_token u.id
                    (some (60 * (ACCESS_TOKEN_EXPIRE_MINUTES : Int))) now secret,
                token_type := "bearer" }) := by
  refine ⟨fun h => by simp [login_access_token, h], ?_, ?_, ?_⟩
  · intro u hu hv
    simp [login_access_token, hu, hv]
  · intro u hu hv ha
    simp [login_access_token, hu, hv, ha]
  · intro u hu hv ha
    simp [login_access_token, hu, hv, ha]

/-- Witness for claim C2: logging `wUser` in with the registered password
succeeds with a bearer token. -/
theorem claim_C2_login_state_machine_witness :
    login_access_token wDb 0 "k" "a@x.com" "secret123" =
      .ok { access_token := create_access_token 1
              (some (60 * (ACCESS_TOKEN_EXPIRE_MINUTES : Int))) 0 "k",
            token_type := "bearer" } :=
  (claim_C2_login_state_machine wDb 0 "k" "a@x.com" "secret123").2.2.2 wUser
    (by decide) (by decide) (by decide)

/-- Claim C6: registration with an email already present in the store fails
with the 400 `DuplicateEmail` error, and the store — including the record
already holding that email — is returned unchanged. -/
theorem claim_C6_duplicate_email (db : Db) (user_in : UserCreate) (u : User)
    (h : firstUserWithEmail db user_in.email = some u) :
    register_user db user_in = (.error duplicateEmailErr, db) := by
  simp [register_user, h]

/-- Witness for claim C6: re-registering the stored email fails and leaves
the store untouched. -/
theorem claim_C6_duplicate_email_witness :
    register_user wDb { email := "a@x.com", password := "o", full_name := "B" } =
      (.error duplicateEmailErr, wDb) :=
  claim_C6_duplicate_email wDb _ wUser (by decide)

/-- The principal `register_user` inserts for a fresh registration (used to
name the witness of the round-trip theorem). -/
def registeredUser (db : Db) (reg : UserCreate) : User :=
  { id := db.nextUserId
    email := reg.email
    full_name := reg.full_name
    hashed_password := get_password_hash reg.password
    is_active := true
    is_admin := false
    language := "it" }

/-- The store `register_user` produces for a fresh registration. -/
def registeredDb (db : Db) (reg : UserCreate) : Db :=
  { db with
      users := db.users ++ [registeredUser db reg]
      nextUserId := db.nextUserId + 1 }

theorem register_user_fresh {db : Db} {reg : UserCreate}
    (hemail : firstUserWithEmail db reg.email = none) :
    register_user db reg = (.ok (registeredUser db reg), registeredDb db reg) := by
  simp [register_user, hemail, registeredUser, registeredDb]

/-- The token login issues for a principal at clock `now`. -/
def loginToken (uid : Nat) (now : Int) (secret : String) : Jwt :=
  create_access_token uid (some (60 * (ACCESS_TOKEN_EXPIRE_MINUTES : Int)))
    now secret

theorem loginToken_accepted (uid : Nat) (now : Int) (secret : String) :
    tokenAccepted secret now (loginToken uid now secret) = true := by
  have hd : (60 * (ACCESS_TOKEN_EXPIRE_MINUTES : Int)) ≠ 0 := by
    simp [ACCESS_TOKEN_EXPIRE_MINUTES]
  have hexp : ¬ (now + 60 * (ACCESS_TOKEN_EXPIRE_MINUTES : Int) < now) := by
    simp only [ACCESS_TOKEN_EXPIRE_MINUTES]
    omega
  simp [loginToken, tokenAccepted, create_access_token, jwtEncode, if_pos hd,
    pyIntCoerce_pyStr, hexp]

theorem loginToken_claimedSubject (uid : Nat) (now : Int) (secret : String) :
    claimedSubject (loginToken uid now secret) = some uid := by
  have hd : (60 * (ACCESS_TOKEN_EXPIRE_MINUTES : Int)) ≠ 0 := by
    simp [ACCESS_TOKEN_EXPIRE_MINUTES]
  simp [loginToken, claimedSubject, create_access_token, jwtEncode, if_pos hd,
    pyIntCoerce_pyStr]

/-- Claim C5: registering a fresh `(email, password, name)` and logging in
once with exactly that pair succeeds and returns the bearer token issued for
the new principal id with the configured ttl; the token embeds
`sub = str(id)`, coercing the claim back recovers the id, and verifying the
token through the gate returns the registered principal itself.  The store
is assumed well formed: no stored id has reached the auto-increment
counter. -/
theorem claim_C5_register_login_roundtrip (db : Db) (reg : UserCreate)
    (now : Int) (secret : String)
    (hemail : firstUserWithEmail db reg.email = none)
    (hids : ∀ v ∈ db.users, v.id < db.nextUserId) :
    register_user db reg = (.ok (registeredUser db reg), registeredDb db reg)
    ∧ (registeredUser db reg).id = db.nextUserId
    ∧ login_access_token (registeredDb db reg) now secret reg.email
        reg.password =
      .ok { access_token := loginToken (registeredUser db reg).id now secret,
            token_type := "bearer" }
    ∧ claimedSubject (loginToken (registeredUser db reg).id now secret) =
        some (registeredUser db reg).id
    ∧ get_current_user (registeredDb db reg) secret now
        (loginToken (registeredUser db reg).id now secret) =
      .ok (registeredUser db reg) := by
  refine ⟨register_user_fresh hemail, rfl, ?_, loginToken_claimedSubject _ _ _, ?_⟩
  · have hfind : firstUserWithEmail (registeredDb db reg) reg.email =
        some (registeredUser db reg) := by
      simp only [firstUserWithEmail, registeredDb] at hemail ⊢
      rw [List.find?_append, hemail]
      simp [registeredUser]
    simp [login_access_token, hfind, verify_password, registeredUser, loginToken]
  · rw [gate_of_accepted (loginToken_accepted _ _ _),
      loginToken_claimedSubject]
    have hpre : db.users.find?
        (fun v => v.id == (registeredUser db reg).id) = none := by
      rw [List.find?_eq_none]
      intro v hv
      simp [registeredUser, Nat.ne_of_lt (hids v hv)]
    simp only [firstUserWithId, registeredDb]
    rw [List.find?_append, hpre]
    simp

/-- An empty store. -/
def wEmptyDb : Db :=
  { users := [], nextUserId := 1, articles := [], nextArticleId := 1,
    saved := [], nextSavedId := 1 }

/-- A concrete registration request. -/
def wReg : UserCreate :=
  { email := "a@x.com", password := "secret123", full_name := "A" }

/-- Witness for claim C5: registering on the empty store and logging in. -/
theorem claim_C5_register_login_roundtrip_witness :
    register_user wEmptyDb wReg =
        (.ok (registeredUser wEmptyDb wReg), registeredDb wEmptyDb wReg)
    ∧ (registeredUser wEmptyDb wReg).id = 1
    ∧ login_access_token (registeredDb wEmptyDb wReg) 0 "k" "a@x.com"
        "secret123" =
      .ok { access_token := loginToken (registeredUser wEmptyDb wReg).id 0 "k",
            token_type := "bearer" }
    ∧ claimedSubject (loginToken (registeredUser wEmptyDb wReg).id 0 "k") =
        some (registeredUser wEmptyDb wReg).id
    ∧ get_current_user (registeredDb wEmptyDb wReg) "k" 0
        (loginToken (registeredUser wEmptyDb wReg).id 0 "k") =
      .ok (registeredUser wEmptyDb wReg) :=
  claim_C5_register_login_roundtrip wEmptyDb wReg 0 "k" (by decide) (by decide)

/-- The article row `create_article` inserts once the admin gate has passed
(used to name results about the creation endpoint). -/
def createdArticle (db : Db) (now : Int) (ain : ArticleCreate)
    (ai : Option StructuredContent) : Article :=
  { id := db.nextArticleId
    title := ain.title
    slug := pyOrStr ain.slug
      (pyReplace (pyReplace (pyLower ain.title) " " "-") "'" "")
    content := ain.content
    excerpt := some (pyOrStr ain.excerpt (ain.content.take 200 ++ "..."))
    category := ain.category
    image_url := ain.image_url
    image_slug := ain.image_slug
    images := match ain.image_url with
      | some u => if u ≠ "" then [u] else []
      | none => []
    structured_content := ai
    author_id := none
    is_published := false
    created_at := now }

theorem create_article_admin {p : User} (h : p.is_admin = true) (db : Db)
    (now : Int) (ain : ArticleCreate) (ai : Option StructuredContent) :
    create_article db now ain p ai =
      (.ok (createdArticle db now ain ai),
        { db with articles := db.articles ++ [createdArticle db now ain ai],
                  nextArticleId := db.nextArticleId + 1 }) := by
  simp [create_article, createdArticle, h]

/-- Claim C4: every mutating article action is admin-gated.  With a
non-admin principal, create, update, delete and upload-image each fail with
their 403 and the content store is returned unchanged (upload-image touches
no store at all).  With an admin principal the gate passes and the same
action succeeds: creation unconditionally, update and delete whenever the
target article exists, upload whenever the file has an image content
type. -/
theorem claim_C4_admin_gate (db : Db) (now : Int) (p : User)
    (ain : ArticleCreate) (ai : Option StructuredContent) (aid : Nat)
    (upd : ArticleUpdate) (f : UploadFile) (uuidHex : String) :
    (p.is_admin = false →
      create_article db now ain p ai =
        (.error { status_code := 403, detail := "Only admins can create articles" }, db)
      ∧ update_article db aid upd p =
        (.error { status_code := 403, detail := "Only admins can update articles" }, db)
      ∧ delete_article db aid p =
        (.error { status_code := 403, detail := "Only admins can delete articles" }, db)
      ∧ upload_image f p uuidHex =
        .error { status_code := 403, detail := "Only admins can upload images" })
    ∧ (p.is_admin = true →
      (create_article db now ain p ai).1 = .ok (createdArticle db now ain ai)
      ∧ (∀ a0, firstArticleWithId db aid = some a0 →
          (update_article db aid upd p).1 = .ok (applyArticleUpdate a0 upd)
          ∧ (delete_article db aid p).1 = .ok "Article deleted successfully")
      ∧ (pyStartsWith f.content_type "image/" = true →
          upload_image f p uuidHex =
            .ok ("/images/blog/" ++ uuidHex ++ "-" ++ f.filename))) := by
  constructor
  · intro h
    refine ⟨?_, ?_, ?_, ?_⟩ <;>
      simp [create_article, update_article, delete_article, upload_image, h]
  · intro h
    refine ⟨by rw [create_article_admin h], ?_, ?_⟩
    · intro a0 ha0
      exact ⟨by simp [update_article, h, ha0], by simp [delete_article, h, ha0]⟩
    · intro hf
      simp [upload_image, h, hf]

/-- A concrete admin principal. -/
def wAdmin : User :=
  { id := 2
    email := "adm@x.com"
    full_name := "Adm"
    hashed_password := get_password_hash "pw"
    is_active := true
    is_admin := true
    language := "it" }

/-- A concrete creation request with no slug provided. -/
def wAin : ArticleCreate :=
  { title := "My Trip", content := "c" }

/-- A concrete uploaded image file. -/
def wFile : UploadFile :=
  { content_type := "image/png", filename := "p.png", content := "b" }

/-- Witness for claim C4: the non-admin `wUser` is refused article creation
with the store unchanged, while the admin `wAdmin` creates the article and
uploads the image. -/
theorem claim_C4_admin_gate_witness :
    (create_article wEmptyDb 0 wAin wUser none =
      (.error { status_code := 403, detail := "Only admins can create articles" }, wEmptyDb))
    ∧ (create_article wEmptyDb 0 wAin wAdmin none).1 =
        .ok (createdArticle wEmptyDb 0 wAin none)
    ∧ upload_image wFile wAdmin "u" = .ok "/images/blog/u-p.png" :=
  ⟨((claim_C4_admin_gate wEmptyDb 0 wUser wAin none 1 {} wFile "u").1 rfl).1,
   ((claim_C4_admin_gate wEmptyDb 0 wAdmin wAin none 1 {} wFile "u").2 rfl).1,
   ((claim_C4_admin_gate wEmptyDb 0 wAdmin wAin none 1 {} wFile "u").2 rfl).2.2
     (by decide)⟩

/-- Number of bookmark rows for a `(user, article)` pair. -/
def savedCount (db : Db) (uid aid : Nat) : Nat :=
  (db.saved.filter (fun s => s.user_id == uid && s.article_id == aid)).length

/-- The store `save_article` produces when it inserts a fresh bookmark. -/
def savedDb (db : Db) (u : User) (aid : Nat) : Db :=
  { db with
      saved := db.saved ++ [{ id := db.nextSavedId, user_id := u.id, article_id := aid }]
      nextSavedId := db.nextSavedId + 1 }

/-- Claim C7: saving an existing article twice with the same principal
succeeds both times, the second call returns the bookmark the first call
left in the store rather than erroring, the second call does not change the
store, and afterwards exactly one bookmark row for the pair exists.  The
starting store is assumed to hold at most one row for the pair — the
application-level uniqueness the endpoint itself maintains. -/
theorem claim_C7_save_idempotent (db : Db) (u : User) (aid : Nat) (a0 : Article)
    (hart : firstArticleWithId db aid = some a0)
    (hcount : savedCount db u.id aid ≤ 1) :
    ∃ s1 db1, save_article db aid u = (.ok s1, db1)
      ∧ save_article db1 aid u = (.ok s1, db1)
      ∧ firstSavedFor db1 u.id aid = some s1
      ∧ savedCount db1 u.id aid = 1 := by
  cases hs : firstSavedFor db u.id aid with
  | some s =>
    have hs2 : db.saved.find?
        (fun r => r.user_id == u.id && r.article_id == aid) = some s := hs
    have hpred := List.find?_some hs2
    refine ⟨s, db, ?_, ?_, hs, ?_⟩
    · simp [save_article, hart, hs]
    · simp [save_article, hart, hs]
    · have hmem : s ∈ db.saved.filter
          (fun r => r.user_id == u.id && r.article_id == aid) :=
        List.mem_filter.mpr ⟨List.mem_of_find?_eq_some hs2, hpred⟩
      have hpos : 0 < savedCount db u.id aid := by
        simpa [savedCount] using List.length_pos_of_mem hmem
      simp only [savedCount] at hcount hpos ⊢
      omega
  | none =>
    have hs2 : db.saved.find?
        (fun r => r.user_id == u.id && r.article_id == aid) = none := hs
    refine ⟨{ id := db.nextSavedId, user_id := u.id, article_id := aid },
      savedDb db u aid, ?_, ?_, ?_, ?_⟩
    · simp [save_article, hart, hs, savedDb]
    · have hart1 : firstArticleWithId (savedDb db u aid) aid = some a0 := hart
      have hs1 : firstSavedFor (savedDb db u aid) u.id aid =
          some { id := db.nextSavedId, user_id := u.id, article_id := aid } := by
        simp only [firstSavedFor, savedDb]
        rw [List.find?_append, hs2]
        simp
      simp [save_article, hart1, hs1]
    · simp only [firstSavedFor, savedDb]
      rw [List.find?_append, hs2]
      simp
    · have hnil : db.saved.filter
          (fun s => s.user_id == u.id && s.article_id == aid) = [] := by
        rw [List.filter_eq_nil_iff]
        intro r hr
        have := List.find?_eq_none.mp hs2 r hr
        simpa using this
      simp [savedCount, savedDb, List.filter_append, hnil]

/-- A concrete stored article, unpublished. -/
def wArt : Article :=
  { id := 1
    title := "T"
    slug := "t"
    content := "c"
    excerpt := none
    category := none
    image_url := none
    image_slug := none
    images := []
    structured_content := none
    author_id := none
    is_published := false
    created_at := 0 }

/-- A store holding `wUser` and the single article `wArt`, no bookmarks. -/
def wDbArt : Db :=
  { users := [wUser], nextUserId := 2, articles := [wArt], nextArticleId := 2,
    saved := [], nextSavedId := 1 }

/-- Witness for claim C7: `wUser` saves the stored article twice. -/
theorem claim_C7_save_idempotent_witness :
    ∃ s1 db1, save_article wDbArt 1 wUser = (.ok s1, db1)
      ∧ save_article db1 1 wUser = (.ok s1, db1)
      ∧ firstSavedFor db1 wUser.id 1 = some s1
      ∧ savedCount db1 wUser.id 1 = 1 :=
  claim_C7_save_idempotent wDbArt wUser 1 wArt (by decide) (by decide)

/-- Counterexample for claim C8 as stated: the list-all-articles operation
(`GET /blog/articles`, `read_articles`) declares no authentication
dependency at all, so a request with no bearer token does not fail — on a
store holding one unpublished article it succeeds and returns that article,
while the public published-only listing returns nothing. -/
theorem claim_C8_counterexample :
    read_articles 0 100 wDbArt = [wArt]
    ∧ wArt.is_published = false
    ∧ get_all_articles wDbArt = [] := by
  decide

/-- Claim C8 (amended): both listing operations are public.
`read_articles` is a total function of the pagination window and the store —
it takes no token or principal, never fails, and returns articles
irrespective of `is_published`; `get_all_articles` is likewise
unauthenticated and returns exactly the published articles. -/
theorem claim_C8_listings_public (db : Db) (skip limit : Nat) :
    read_articles skip limit db = (db.articles.drop skip).take limit
    ∧ read_articles 0 db.articles.length db = db.articles
    ∧ (∀ a, a ∈ get_all_articles db ↔ a ∈ db.articles ∧ a.is_published = true) := by
  refine ⟨rfl, ?_, ?_⟩
  · simp [read_articles]
  · intro a
    simp [get_all_articles, List.mem_filter]

/-- The apostrophe character, written by code point to keep it out of
character literals. -/
def apostropheChar : Char := Char.ofNat 39

/-- Specification-side slug: the request title lowercased character by
character, with every space turned into a dash and every apostrophe
dropped. -/
def slugSpec (title : String) : String :=
  ⟨(title.data.map Char.toLower).flatMap
    (fun c => if c == ' ' then ['-']
      else if c == apostropheChar then [] else [c])⟩

theorem code_slug_eq_spec (title : String) :
    pyReplace (pyReplace (pyLower title) " " "-") "'" "" = slugSpec title := by
  have key : ∀ l : List Char,
      (l.flatMap (fun c => if c == ' ' then ['-'] else [c])).flatMap
          (fun c => if c == apostropheChar then [] else [c]) =
        l.flatMap (fun c => if c == ' ' then ['-']
          else if c == apostropheChar then [] else [c]) := by
    intro l
    rw [List.flatMap_assoc]
    congr 1
    funext c
    by_cases hc : c = ' '
    · subst hc
      decide
    · have hcb : (c == ' ') = false := by simp [hc]
      simp [hcb]
  have e1 : pyReplace (pyLower title) " " "-" =
      ⟨(pyLower title).data.flatMap (fun c => if c == ' ' then ['-'] else [c])⟩ := by
    show (⟨pyReplaceAux ' ' [] ['-'] (pyLower title).data⟩ : String) = _
    rw [pyReplaceAux_single]
  have e2 : ∀ s : String, pyReplace s "'" "" =
      ⟨s.data.flatMap (fun c => if c == apostropheChar then [] else [c])⟩ := by
    intro s
    show (⟨pyReplaceAux apostropheChar [] [] s.data⟩ : String) = _
    rw [pyReplaceAux_single]
  rw [e1, e2]
  show (⟨((title.data.map Char.toLower).flatMap
      (fun c => if c == ' ' then ['-'] else [c])).flatMap
      (fun c => if c == apostropheChar then [] else [c])⟩ : String) = slugSpec title
  exact congrArg String.mk (key (title.data.map Char.toLower))

/-- Claim C10: on the AI-structuring creation endpoint, an admin request
with no slug (absent or empty) stores the article with the title lowercased,
spaces turned into dashes and apostrophes removed; a nonempty provided slug
is stored exactly as given. -/
theorem claim_C10_slug_generation (db : Db) (now : Int) (ain : ArticleCreate)
    (u : User) (ai : Option StructuredContent) (hadmin : u.is_admin = true) :
    create_article db now ain u ai =
      (.ok (createdArticle db now ain ai),
        { db with articles := db.articles ++ [createdArticle db now ain ai],
                  nextArticleId := db.nextArticleId + 1 })
    ∧ ((ain.slug = none ∨ ain.slug = some "") →
        (createdArticle db now ain ai).slug = slugSpec ain.title)
    ∧ (∀ s, ain.slug = some s → s ≠ "" →
        (createdArticle db now ain ai).slug = s) := by
  refine ⟨create_article_admin hadmin db now ain ai, ?_, ?_⟩
  · intro h
    cases h with
    | inl h => simp [createdArticle, pyOrStr, h, code_slug_eq_spec]
    | inr h => simp [createdArticle, pyOrStr, h, code_slug_eq_spec]
  · intro s hs hne
    simp [createdArticle, pyOrStr, hs, hne]

/-- Witness for claim C10: the admin creation of `wAin` (title `"My Trip"`,
no slug) stores slug `"my-trip"`. -/
theorem claim_C10_slug_generation_witness :
    (createdArticle wEmptyDb 0 wAin none).slug = slugSpec wAin.title
    ∧ slugSpec wAin.title = "my-trip" :=
  ⟨(claim_C10_slug_generation wEmptyDb 0 wAin wAdmin none rfl).2.1 (Or.inl rfl),
   by decide⟩
